import Mathlib

set_option maxRecDepth 4000

/-!
Shallow embedding of the OAuth 2.1 authorization core of the multi-tenant
MCP server sample: the JWT verifier and its error classification, the
RFC 9728 protected-resource metadata publisher, the RFC 8414
OpenID-configuration proxy with its process-wide cache, the RFC 7591
dynamic client registration handler with its deduplicating index, and the
tenant credential derivation (role assumption with session tags).

JavaScript idioms are modelled explicitly: an absent value is
`Option.none`; template interpolation of a possibly absent value yields
the text "undefined"; the logical-or defaulting idiom treats the empty
string and zero as false.
-/

/-- JavaScript template interpolation of a possibly undefined string value:
an undefined value renders as the literal text "undefined". -/
def jsTemplateStr : Option String → String
  | none => "undefined"
  | some s => s

/-- JavaScript truthiness of a possibly undefined string: undefined and the
empty string are falsy. -/
def jsTruthy : Option String → Bool
  | none => false
  | some s => s != ""

/-- The JavaScript idiom a logical-or d for a possibly undefined string a:
returns a when truthy, d otherwise. -/
def jsOrStr (a : Option String) (d : String) : String :=
  if jsTruthy a then a.getD "" else d

/-- The JavaScript idiom n logical-or d for a possibly null number n:
null and 0 are falsy, in which case d is returned. -/
def jsOrNat (o : Option Nat) (d : Nat) : Nat :=
  match o with
  | none => d
  | some n => if n = 0 then d else n

/-- A process environment: a partial map from variable names to values. -/
def Env : Type := String → Option String

/-- JavaScript whitespace as far as the repository relies on it. -/
def isJsSpace (c : Char) : Bool :=
  c == ' ' || c == '\t' || c == '\n' || c == '\r'

/-- JavaScript string trim. -/
def jsTrim (s : String) : String :=
  String.mk (((s.toList.dropWhile isJsSpace).reverse.dropWhile isJsSpace).reverse)

/-- JavaScript lowercasing (ASCII, which covers every string compared). -/
def jsToLower (s : String) : String :=
  String.mk (s.toList.map Char.toLower)

/-- JavaScript startsWith. -/
def jsStartsWith (s pre : String) : Bool :=
  pre.toList.isPrefixOf s.toList

/-- The emptiness check of the metadata publisher: a value is effectively
empty when it is undefined, null, or a whitespace-only string. -/
def jsIsEmpty : Option String → Bool
  | none => true
  | some s => jsTrim s == ""

/-! ### Model of the WHATWG URL parser

The repository calls the JavaScript URL constructor only to test whether a
string is a well-formed absolute URL and to read its protocol. The model
below captures that fragment: a valid scheme (ASCII letter followed by
letters, digits, plus, minus or dot, then a colon) is required; for the
special network schemes (http, https, ws, wss, ftp) the slashes after the
colon are skipped and a non-empty host is required, matching the WHATWG
special-authority states. Port digit validation and percent-encoding are
not modelled; no claim depends on them. -/

/-- Characters allowed in a URL scheme after the first letter. -/
def schemeCharOk (c : Char) : Bool :=
  c.isAlpha || c.isDigit || c == '+' || c == '-' || c == '.'

/-- Split a character list into the scheme (before the first colon, all
scheme characters) and the remainder after the colon. -/
def takeScheme : List Char → Option (List Char × List Char)
  | [] => none
  | c :: rest =>
    if c = ':' then some ([], rest)
    else if schemeCharOk c then
      match takeScheme rest with
      | none => none
      | some (sch, r) => some (c :: sch, r)
    else none

/-- Result of a successful URL parse: the lowercased protocol (with the
trailing colon, as in JavaScript) and the host (empty for non-special
schemes). -/
structure JsURL where
  protocol : String
  host : String
deriving DecidableEq, Repr

/-- Schemes the WHATWG parser treats as special network schemes requiring a
non-empty host. -/
def specialSchemes : List String := ["http", "https", "ws", "wss", "ftp"]

/-- Model of the JavaScript URL constructor on an absolute URL string:
none models a thrown TypeError. -/
def jsParseURL (s : String) : Option JsURL :=
  match takeScheme s.toList with
  | none => none
  | some ([], _) => none
  | some (c :: cs, rest) =>
    if ¬ c.isAlpha then none
    else
      let scheme := String.mk ((c :: cs).map Char.toLower)
      if specialSchemes.contains scheme then
        let afterSlashes := rest.dropWhile (fun ch => ch == '/' || ch == '\\')
        let host := afterSlashes.takeWhile
          (fun ch => !(ch == '/' || ch == '?' || ch == '#' || ch == ':' || ch == '\\'))
        if host.isEmpty then none
        else some { protocol := scheme ++ ":", host := String.mk host }
      else some { protocol := scheme ++ ":", host := "" }

/-! ### Base64url and UTF-8, as used by the registration dedup key

The registration handler computes
Buffer.from(sortedUris).toString(base64url): UTF-8 encode, then base64 with
the URL-safe alphabet and no padding. -/

/-- The URL-safe base64 alphabet. -/
def base64Alphabet : List Char :=
  "ABCDEFGHIJKLMNOPQRSTUVWXYZabcdefghijklmnopqrstuvwxyz0123456789-_".toList

/-- The base64 digit for a 6-bit value. -/
def base64Digit (n : Nat) : Char := base64Alphabet.getD n 'A'

/-- Unpadded base64url encoding of a byte list (three bytes to four digits,
with the standard 8-bit and 16-bit tails). -/
def base64urlOfBytes : List Nat → List Char
  | [] => []
  | [b1] => [base64Digit (b1 / 4), base64Digit (b1 % 4 * 16)]
  | [b1, b2] =>
    [base64Digit (b1 / 4), base64Digit (b1 % 4 * 16 + b2 / 16), base64Digit (b2 % 16 * 4)]
  | b1 :: b2 :: b3 :: rest =>
    base64Digit (b1 / 4) :: base64Digit (b1 % 4 * 16 + b2 / 16) ::
      base64Digit (b2 % 16 * 4 + b3 / 64) :: base64Digit (b3 % 64) :: base64urlOfBytes rest

/-- UTF-8 encoding of a Unicode code point. -/
def utf8EncodeCodepoint (n : Nat) : List Nat :=
  if n < 128 then [n]
  else if n < 2048 then [192 + n / 64, 128 + n % 64]
  else if n < 65536 then [224 + n / 4096, 128 + n / 64 % 64, 128 + n % 64]
  else [240 + n / 262144, 128 + n / 4096 % 64, 128 + n / 64 % 64, 128 + n % 64]

/-- UTF-8 encoding of a string as a byte list. -/
def utf8Bytes (s : String) : List Nat :=
  s.toList.foldr (fun c acc => utf8EncodeCodepoint c.toNat ++ acc) []

/-! ### Dynamic client registration: dedup key -/

/-- JavaScript default array sort on strings (lexicographic by code unit;
on the strings at hand this agrees with the Unicode code point order used
here). -/
def sortUris (l : List String) : List String :=
  List.insertionSort (fun a b : String => a ≤ b) l

/-- The composite dedup key of the registration handler:
clientName, a hash sign, then base64url of the comma-join of the sorted
redirect URIs. The client name is template-interpolated, so a missing name
renders as "undefined". -/
def createClientKey (clientName : Option String) (redirectUris : List String) : String :=
  let sortedUris := String.intercalate "," (sortUris redirectUris)
  let encodedUris := String.mk (base64urlOfBytes (utf8Bytes sortedUris))
  jsTemplateStr clientName ++ "#" ++ encodedUris

theorem sortUris_perm_eq {l₁ l₂ : List String} (h : l₁.Perm l₂) :
    sortUris l₁ = sortUris l₂ := by
  refine List.eq_of_perm_of_sorted
    (((List.perm_insertionSort _ l₁).trans h).trans (List.perm_insertionSort _ l₂).symm)
    (List.sorted_insertionSort _ l₁) (List.sorted_insertionSort _ l₂)

/-- C8: the dedup key is order-independent in the redirect URIs — for every
client name and every two redirect-URI lists that are permutations of each
other, createClientKey produces the identical composite key, so the two
registrations resolve to the same dedup entry. -/
theorem createClientKey_perm_invariant (clientName : Option String)
    (l₁ l₂ : List String) (h : l₁.Perm l₂) :
    createClientKey clientName l₁ = createClientKey clientName l₂ := by
  unfold createClientKey
  rw [sortUris_perm_eq h]

/-- Witness for C8 at a concrete permuted pair of redirect-URI lists. -/
theorem createClientKey_perm_invariant_witness :
    (["https://app.example/cb", "http://localhost:4000/cb"] : List String).Perm
        ["http://localhost:4000/cb", "https://app.example/cb"] ∧
      createClientKey (some "CLI Tool") ["https://app.example/cb", "http://localhost:4000/cb"] =
        createClientKey (some "CLI Tool") ["http://localhost:4000/cb", "https://app.example/cb"] :=
  ⟨by decide, createClientKey_perm_invariant (some "CLI Tool") _ _ (by decide)⟩

/-- Substring test on character lists (needle, then haystack). -/
def containsSubList (needle : List Char) : List Char → Bool
  | [] => needle.isEmpty
  | c :: rest => needle.isPrefixOf (c :: rest) || containsSubList needle rest

/-- The JavaScript string includes test: hay contains needle. -/
def jsIncludes (hay needle : String) : Bool :=
  containsSubList needle.toList hay.toList

/-! ### JWT verification failure classification

The processJwt wrapper classifies errors raised during verification by the
name and message of the JavaScript error object. The error producers below
model the two third-party collaborators: jwks-rsa (key-set lookup) and
jsonwebtoken (signature and time-claim verification). In jsonwebtoken, an
error returned by the key callback is wrapped into a JsonWebTokenError
whose message is prefixed with a fixed text, while an expired token is
reported as a TokenExpiredError after a valid signature check. -/

/-- A JavaScript error as observed by the classification chain. -/
structure JsError where
  name : String
  message : String
deriving DecidableEq, Repr

/-- Outcome of processJwt on a verification failure: either an invalid-token
rejection or a server error, each carrying the message the chain builds. -/
inductive AuthFailure where
  | invalidToken (message : String)
  | serverError (message : String)
deriving DecidableEq, Repr

/-- The error classification chain of processJwt, branch for branch. -/
def classifyJwtError (e : JsError) : AuthFailure :=
  if e.name = "TokenExpiredError" then
    .invalidToken "Authentication failed: Your token has expired. Please log in again."
  else if e.name = "JsonWebTokenError" then
    .invalidToken "Authentication failed: Invalid token format or signature."
  else if e.name = "NotBeforeError" then
    .invalidToken "Authentication failed: Token not yet valid."
  else if jsIncludes e.message "signing key" then
    .invalidToken "Authentication failed: Token was not issued by the expected authority."
  else
    .serverError "Authentication failed: Token verification error."

/-- Model of the jwks-rsa lookup failure for a key id absent from the
published JWKS: a SigningKeyNotFoundError naming the key id. -/
def signingKeyNotFoundError (kid : String) : JsError :=
  { name := "SigningKeyNotFoundError",
    message := "Unable to find a signing key that matches \x27" ++ kid ++ "\x27" }

/-- Model of jsonwebtoken surfacing an error returned by its key callback:
the library wraps it into a JsonWebTokenError with a fixed message prefix,
keeping the original message as a suffix. -/
def jwtKeyCallbackError (e : JsError) : JsError :=
  { name := "JsonWebTokenError",
    message := "error in secret or public key callback: " ++ e.message }

/-- Model of the jsonwebtoken failure for a validly signed token whose exp
claim lies in the past: a TokenExpiredError. -/
def tokenExpiredError : JsError :=
  { name := "TokenExpiredError", message := "jwt expired" }

/-- The classification the specification calls Expired. -/
def expiredClassification : AuthFailure :=
  .invalidToken "Authentication failed: Your token has expired. Please log in again."

/-- The classification the specification calls UnknownSigningKey. -/
def unknownSigningKeyClassification : AuthFailure :=
  .invalidToken "Authentication failed: Token was not issued by the expected authority."

/-- The classification the specification calls Malformed (invalid format or
signature). -/
def malformedClassification : AuthFailure :=
  .invalidToken "Authentication failed: Invalid token format or signature."

/-- C2: evaluation of the classification chain at the failing input. An
unknown key id makes the key callback fail with a SigningKeyNotFoundError,
which jsonwebtoken wraps into a JsonWebTokenError, so the chain classifies
it as invalid format or signature rather than as the unknown-signing-key
classification: the name check precedes the message check even though the
wrapped message still contains the text signing key. A validly signed but
expired token is classified expired, and the two classifications named by
the claim are distinct from each other. -/
theorem classifyJwtError_unknown_kid_is_malformed :
    classifyJwtError (jwtKeyCallbackError (signingKeyNotFoundError "kid123")) =
        malformedClassification ∧
      classifyJwtError (jwtKeyCallbackError (signingKeyNotFoundError "kid123")) ≠
        unknownSigningKeyClassification ∧
      classifyJwtError tokenExpiredError = expiredClassification ∧
      expiredClassification ≠ unknownSigningKeyClassification ∧
      jsIncludes (jwtKeyCallbackError (signingKeyNotFoundError "kid123")).message
        "signing key" = true := by
  decide

/-! ### Verified claims and the tenant context -/

/-- The claims of a verified token that processJwt reads: subject, the
tenant id under its two possible claim names, and the tenant tier under its
two possible claim names. -/
structure VerifiedClaims where
  sub : Option String
  customTenantId : Option String
  tenantIdClaim : Option String
  customTenantTier : Option String
  tenantTierClaim : Option String
deriving DecidableEq, Repr

/-- The request-local tenant context attached on successful verification. -/
structure TenantContext where
  userId : String
  tenantId : String
  tenantTier : String
deriving DecidableEq, Repr

/-- The extra record processJwt attaches to a verified request: every field
is derived from the verified claims only. -/
def processJwtExtra (u : VerifiedClaims) : TenantContext :=
  { userId := jsOrStr u.sub "anonymous",
    tenantId := jsOrStr u.customTenantId (jsOrStr u.tenantIdClaim ""),
    tenantTier := jsOrStr u.customTenantTier (jsOrStr u.tenantTierClaim "basic") }

/-! ### Tenant credential derivation (role assumption) -/

/-- A role-assumption request: the session name and the session tags. -/
structure AssumeRoleCall where
  roleSessionName : String
  tags : List (String × String)
deriving DecidableEq, Repr

/-- The role-assumption request built by getDynamoDbClient: deterministic
session name and a single session tag carrying the tenant id. -/
def getDynamoDbClientCall (tenantId : String) : AssumeRoleCall :=
  { roleSessionName := "tenant-" ++ tenantId ++ "-session",
    tags := [("tenantId", tenantId)] }

/-- The role-assumption request built by getS3Client (same shape as the
DynamoDB one). -/
def getS3ClientCall (tenantId : String) : AssumeRoleCall :=
  { roleSessionName := "tenant-" ++ tenantId ++ "-session",
    tags := [("tenantId", tenantId)] }

/-- The path variables of the tenant-files resource template. -/
structure ResourceVars where
  tenantId : String
  filename : String
deriving DecidableEq, Repr

/-- The tenant-files resource read handler, paired with the trace of
role-assumption calls it makes. The effective tenant id is always the one
from the verified auth info; a mismatching path-parameter tenant id aborts
before any credential derivation, and on a match getS3File derives
credentials for the verified tenant. -/
def tenantFilesReadHandler (authTenantId : String) (v : ResourceVars) :
    Except String String × List AssumeRoleCall :=
  if authTenantId ≠ v.tenantId then
    (.error "Access denied: cannot access other tenant\x27s files", [])
  else
    (.ok (authTenantId ++ "/" ++ v.filename), [getS3ClientCall authTenantId])

/-- The parameters of the list-bookings tool: no tenant parameter exists. -/
structure ListBookingsParams where
  type : Option String
  id : Option String
deriving DecidableEq, Repr

/-- The role-assumption calls made by the list-bookings tool: the tenant id
comes from the verified auth info only, and each of the three query
branches derives credentials for exactly that tenant. -/
def listBookingsCalls (p : ListBookingsParams) (authTenantId : Option String) :
    List AssumeRoleCall :=
  match authTenantId with
  | none => []
  | some t =>
    match p.id with
    | some _ => [getDynamoDbClientCall t]
    | none =>
      match p.type with
      | some _ => [getDynamoDbClientCall t]
      | none => [getDynamoDbClientCall t]

/-- C1: tenant binding fidelity. For a request whose token verified with
tenant id T, every role-assumption call made while serving the request
carries the session tag tenantId maps-to T and the session name tenant-T-
session, where T is taken from the verified tenant context; when the
request names a different tenant id as a path parameter, the resource read
handler makes no credential-derivation call at all. -/
theorem tenant_binding_fidelity (u : VerifiedClaims) (v : ResourceVars)
    (p : ListBookingsParams) :
    (∀ call ∈ (tenantFilesReadHandler (processJwtExtra u).tenantId v).2,
        call.roleSessionName = "tenant-" ++ (processJwtExtra u).tenantId ++ "-session" ∧
          call.tags = [("tenantId", (processJwtExtra u).tenantId)]) ∧
      ((processJwtExtra u).tenantId ≠ v.tenantId →
        (tenantFilesReadHandler (processJwtExtra u).tenantId v).2 = []) ∧
      (∀ call ∈ listBookingsCalls p (some (processJwtExtra u).tenantId),
        call.roleSessionName = "tenant-" ++ (processJwtExtra u).tenantId ++ "-session" ∧
          call.tags = [("tenantId", (processJwtExtra u).tenantId)]) := by
  refine ⟨?_, ?_, ?_⟩
  · intro call hcall
    unfold tenantFilesReadHandler at hcall
    by_cases h : (processJwtExtra u).tenantId ≠ v.tenantId
    · simp [h] at hcall
    · simp [h, getS3ClientCall] at hcall
      subst hcall
      exact ⟨rfl, rfl⟩
  · intro h
    unfold tenantFilesReadHandler
    simp [h]
  · intro call hcall
    unfold listBookingsCalls at hcall
    rcases p with ⟨ptype, pid⟩
    rcases pid with _ | pid <;> rcases ptype with _ | ptype <;>
      simp [getDynamoDbClientCall] at hcall <;>
      (subst hcall; exact ⟨rfl, rfl⟩)

/-- Witness for C1: a token verified with tenant acme; with path parameter
tenant mallory no credential call is made, and the call made for the
matching request carries the acme session tag and session name. -/
theorem tenant_binding_fidelity_witness :
    (tenantFilesReadHandler
        (processJwtExtra ⟨some "user-1", some "acme", none, none, none⟩).tenantId
        ⟨"mallory", "policy.md"⟩).2 = [] ∧
      (getS3ClientCall
          (processJwtExtra ⟨some "user-1", some "acme", none, none, none⟩).tenantId).roleSessionName =
        "tenant-" ++ (processJwtExtra ⟨some "user-1", some "acme", none, none, none⟩).tenantId ++
          "-session" ∧
      (getS3ClientCall
          (processJwtExtra ⟨some "user-1", some "acme", none, none, none⟩).tenantId).tags =
        [("tenantId", (processJwtExtra ⟨some "user-1", some "acme", none, none, none⟩).tenantId)] :=
  ⟨(tenant_binding_fidelity ⟨some "user-1", some "acme", none, none, none⟩
      ⟨"mallory", "policy.md"⟩ ⟨none, none⟩).2.1 (by decide),
    ((tenant_binding_fidelity ⟨some "user-1", some "acme", none, none, none⟩
        ⟨"acme", "policy.md"⟩ ⟨none, none⟩).1 _ (by decide)).1,
    ((tenant_binding_fidelity ⟨some "user-1", some "acme", none, none, none⟩
        ⟨"acme", "policy.md"⟩ ⟨none, none⟩).1 _ (by decide)).2⟩

/-! ### RFC 9728 protected-resource metadata publisher -/

/-- The protected-resource metadata document. -/
structure ProtectedResourceMetadata where
  resource : String
  authorization_servers : List String
  scopes_supported : List String
  bearer_methods_supported : List String
deriving DecidableEq, Repr

/-- Strip one trailing slash, as the regex replacement of a final slash by
the empty string does. -/
def stripTrailingSlash (s : String) : String :=
  match s.toList.reverse with
  | '/' :: rest => String.mk rest.reverse
  | _ => s

/-- generateMetadata, field for field from the source: resource is the
configured base URL with the fixed mcp suffix; the authorization server is
the DCR proxy URL (trailing slash stripped) when DCR is enabled and the
proxy URL is truthy, else the directly computed issuer URL from region and
pool id; scopes and bearer methods are fixed. -/
def generateMetadata (env : Env) : ProtectedResourceMetadata :=
  let resourceServerUrl := env "RESOURCE_SERVER_URL"
  let userPoolId := env "COGNITO_USER_POOL_ID"
  let region := env "AWS_REGION"
  let dcrEnabled := jsToLower ((env "DCR_ENABLED").getD "false") == "true"
  let authorizationServerUrl := env "AUTHORIZATION_SERVER_WITH_DCR_URL"
  { resource := jsTemplateStr resourceServerUrl ++ "/mcp",
    authorization_servers :=
      if dcrEnabled && jsTruthy authorizationServerUrl then
        [stripTrailingSlash (authorizationServerUrl.getD "")]
      else
        ["https://cognito-idp." ++ jsTemplateStr region ++ ".amazonaws.com/" ++
          jsTemplateStr userPoolId],
    scopes_supported := ["openid", "profile", "email"],
    bearer_methods_supported := ["header"] }

/-- Result of validateConfiguration. -/
structure ValidationResult where
  isValid : Bool
  errors : List String
deriving DecidableEq, Repr

/-- The message pushed for a missing required setting. -/
def missingMsg (name : String) : String :=
  "Missing required environment variable: " ++ name

/-- The message pushed for a resource URL with a non-http protocol. -/
def urlFormatProtocolMsg : String :=
  "Invalid RESOURCE_SERVER_URL format: must use http or https protocol"

/-- The message pushed for a resource URL that does not parse. -/
def urlFormatInvalidMsg : String :=
  "Invalid RESOURCE_SERVER_URL format: must be a valid URL"

/-- The URL-format check of validateConfiguration: skipped entirely when
the value is empty, otherwise the message for the violated format rule. -/
def urlFormatViolation (env : Env) : Option String :=
  if jsIsEmpty (env "RESOURCE_SERVER_URL") then none
  else
    match jsParseURL ((env "RESOURCE_SERVER_URL").getD "") with
    | some u =>
      if u.protocol != "http:" && u.protocol != "https:" then some urlFormatProtocolMsg
      else none
    | none => some urlFormatInvalidMsg

/-- validateConfiguration: pushes one message per violated check, in source
order, and is valid exactly when no message was pushed. -/
def validateConfiguration (env : Env) : ValidationResult :=
  let e1 := if jsIsEmpty (env "RESOURCE_SERVER_URL") then [missingMsg "RESOURCE_SERVER_URL"] else []
  let e2 := if jsIsEmpty (env "COGNITO_USER_POOL_ID") then [missingMsg "COGNITO_USER_POOL_ID"] else []
  let e3 := if jsIsEmpty (env "AWS_REGION") then [missingMsg "AWS_REGION"] else []
  let e4 := (urlFormatViolation env).toList
  let errors := e1 ++ e2 ++ e3 ++ e4
  { isValid := errors.isEmpty, errors := errors }

/-- An HTTP response of the protected-resource metadata endpoint. -/
inductive MetadataResponse where
  | ok (status : Nat) (doc : ProtectedResourceMetadata)
  | err (status : Nat) (error : String) (errorDescription : String)
deriving DecidableEq, Repr

/-- The Express handler of the metadata endpoint: invalid configuration
yields the 503 service-unavailable error, valid configuration the generated
document with status 200. -/
def handleMetadataRequest (env : Env) : MetadataResponse :=
  if !(validateConfiguration env).isValid then
    .err 503 "service_unavailable"
      "OAuth metadata temporarily unavailable due to configuration error"
  else .ok 200 (generateMetadata env)

/-! ### RFC 8414 OpenID-configuration proxy -/

/-- JSON values appearing in a metadata document. -/
inductive JVal where
  | str (s : String)
  | arr (l : List String)
  | num (n : Nat)
  | boolean (b : Bool)
deriving DecidableEq, Repr

/-- A JSON object as an ordered association list. -/
abbrev JsonDoc : Type := List (String × JVal)

/-- Lookup in an ordered association document. -/
def lookupKey (k : String) : JsonDoc → Option JVal
  | [] => none
  | p :: t => bif p.1 == k then some p.2 else lookupKey k t

/-- Replace the value stored under an existing key, keeping its position. -/
def replaceKey (k : String) (v : JVal) : JsonDoc → JsonDoc
  | [] => []
  | p :: t => (bif p.1 == k then (k, v) else p) :: replaceKey k v t

/-- JavaScript object spread update: an existing key is overwritten in
place, a new key is appended. -/
def jsSetKey (doc : JsonDoc) (k : String) (v : JVal) : JsonDoc :=
  bif doc.any (fun p => p.1 == k) then replaceKey k v doc
  else doc ++ [(k, v)]

/-- The enhanced configuration: the upstream document with exactly the
registration endpoint and the PKCE signal merged in. -/
def enhanceConfig (doc : JsonDoc) (registrationEndpointUrl : String) : JsonDoc :=
  jsSetKey (jsSetKey doc "registration_endpoint" (.str registrationEndpointUrl))
    "code_challenge_methods_supported" (.arr ["S256"])

/-- The maximal digit run at the head of a character list. -/
def takeDigits (l : List Char) : List Char := l.takeWhile (fun c => c.isDigit)

/-- Value of a decimal digit list. -/
def natOfDigits (l : List Char) : Nat :=
  l.foldl (fun acc c => acc * 10 + (c.toNat - 48)) 0

/-- Scan for the first occurrence of max-age= followed by at least one
digit, as the regular expression in parseCacheControl does. -/
def findMaxAge : List Char → Option Nat
  | [] => none
  | c :: rest =>
    if "max-age=".toList.isPrefixOf (c :: rest) then
      let ds := takeDigits ((c :: rest).drop 8)
      if ds.isEmpty then findMaxAge rest else some (natOfDigits ds)
    else findMaxAge rest

/-- parseCacheControl: the max-age value of a Cache-Control header, none
when the header is absent or carries no max-age directive. -/
def parseCacheControl (cacheControl : Option String) : Option Nat :=
  match cacheControl with
  | none => none
  | some s => findMaxAge s.toList

/-- The process-wide cache slot of the proxy: the cached document and its
expiry in epoch milliseconds, both initially null. -/
structure OidcCache where
  cachedConfig : Option JsonDoc
  cacheExpiry : Option Nat
deriving DecidableEq, Repr

/-- Numeric coercion of the possibly null expiry (null compares as 0). -/
def expiryNum (e : Option Nat) : Nat := e.getD 0

/-- The upstream response observed by the metadata fetch. -/
structure UpstreamResponse where
  ok : Bool
  status : Nat
  statusText : String
  body : JsonDoc
  cacheControl : Option String
deriving DecidableEq, Repr

/-- The fetch-and-merge branch of getOpenIDConfiguration: a non-success
upstream status raises an error leaving the cache untouched; on success the
enhanced document is cached until now plus the max-age (default 3600
seconds, with zero falsy) in milliseconds. -/
def oidcRefresh (st : OidcCache) (now : Nat) (registrationEndpointUrl : String)
    (up : UpstreamResponse) : Except String JsonDoc × OidcCache × Bool :=
  if !up.ok then
    (.error ("Cognito OpenID config request failed: " ++ toString up.status ++ " " ++
        up.statusText), st, true)
  else
    let enhanced := enhanceConfig up.body registrationEndpointUrl
    let maxAge := jsOrNat (parseCacheControl up.cacheControl) 3600
    (.ok enhanced,
      { cachedConfig := some enhanced, cacheExpiry := some (now + maxAge * 1000) }, true)

/-- getOpenIDConfiguration as a state transformer: the document or an
error, the new cache state, and whether an upstream fetch was made. -/
def getOpenIDConfiguration (st : OidcCache) (now : Nat)
    (registrationEndpointUrl : String) (up : UpstreamResponse) :
    Except String JsonDoc × OidcCache × Bool :=
  match st.cachedConfig with
  | some doc =>
    if now < expiryNum st.cacheExpiry then (.ok doc, st, false)
    else oidcRefresh st now registrationEndpointUrl up
  | none => oidcRefresh st now registrationEndpointUrl up

/-- An incoming event as logged by the lambda; its content never reaches
the response computation. -/
structure OidcEvent where
  httpMethod : String
  path : String
deriving DecidableEq, Repr

/-- An HTTP response of the proxy endpoint. -/
inductive OidcResponse where
  | ok (status : Nat) (body : JsonDoc)
  | err (status : Nat) (error : String) (errorDescription : String)
deriving DecidableEq, Repr

/-- The environment variables the lambda requires. -/
def oidcRequiredEnvVars : List String :=
  ["COGNITO_USER_POOL_ID", "DEPLOYMENT_REGION", "REGISTRATION_ENDPOINT_URL"]

/-- The lambda handler: a missing required variable fails closed with the
generic 500 before any fetch; otherwise the cached or refreshed document is
served with 200, and any raised error yields the same generic 500. -/
def oidcHandler (env : Env) (_event : OidcEvent) (st : OidcCache) (now : Nat)
    (up : UpstreamResponse) : OidcResponse × OidcCache × Bool :=
  let missingVars := oidcRequiredEnvVars.filter (fun v => !jsTruthy (env v))
  if !missingVars.isEmpty then
    (.err 500 "server_error" "OpenID configuration temporarily unavailable", st, false)
  else
    match getOpenIDConfiguration st now ((env "REGISTRATION_ENDPOINT_URL").getD "") up with
    | (.ok doc, st2, fetched) => (.ok 200 doc, st2, fetched)
    | (.error _, st2, fetched) =>
      (.err 500 "server_error" "OpenID configuration temporarily unavailable", st2, fetched)

/-- A small association environment for concrete instantiations. -/
def mkEnv (l : List (String × String)) : Env := fun v => l.lookup v

/-! ### Helper lemmas -/

theorem lookupKey_replaceKey_self (k : String) (v : JVal) (t : JsonDoc)
    (hany : t.any (fun p => p.1 == k) = true) :
    lookupKey k (replaceKey k v t) = some v := by
  induction t with
  | nil => simp at hany
  | cons h t ih =>
    by_cases hk : (h.1 == k) = true
    · simp [replaceKey, hk, lookupKey]
    · simp only [Bool.not_eq_true] at hk
      simp only [List.any_cons, hk, Bool.false_or] at hany
      simp [replaceKey, hk, lookupKey, ih hany]

theorem lookupKey_replaceKey_other (k k' : String) (v : JVal) (t : JsonDoc)
    (hne : k' ≠ k) :
    lookupKey k' (replaceKey k v t) = lookupKey k' t := by
  induction t with
  | nil => simp [replaceKey]
  | cons h t ih =>
    by_cases hk : (h.1 == k) = true
    · have hk1 : h.1 = k := by simpa using hk
      have h2 : (k == k') = false := beq_eq_false_iff_ne.mpr (Ne.symm hne)
      simp [replaceKey, hk, lookupKey, h2, hk1, ih]
    · simp only [Bool.not_eq_true] at hk
      cases hh : (h.1 == k') <;> simp [replaceKey, hk, lookupKey, hh, ih]

theorem lookupKey_append_single (t : JsonDoc) (k k' : String) (v : JVal) :
    lookupKey k' (t ++ [(k, v)]) =
      (lookupKey k' t).orElse (fun _ => bif k == k' then some v else none) := by
  induction t with
  | nil => cases h : (k == k') <;> simp [lookupKey, h, Option.orElse]
  | cons h t ih =>
    cases hh : (h.1 == k') <;> simp [lookupKey, hh, ih, Option.orElse]

theorem lookupKey_eq_none_of_any_false (k : String) (t : JsonDoc)
    (hany : t.any (fun p => p.1 == k) = false) :
    lookupKey k t = none := by
  induction t with
  | nil => simp [lookupKey]
  | cons h t ih =>
    simp only [List.any_cons, Bool.or_eq_false_iff] at hany
    simp [lookupKey, hany.1, ih hany.2]

theorem lookupKey_jsSetKey_self (doc : JsonDoc) (k : String) (v : JVal) :
    lookupKey k (jsSetKey doc k v) = some v := by
  unfold jsSetKey
  cases hany : doc.any (fun p => p.1 == k) with
  | true => simpa [cond] using lookupKey_replaceKey_self k v doc hany
  | false =>
    simp [cond, lookupKey_append_single, lookupKey_eq_none_of_any_false k doc hany,
      Option.orElse]

theorem lookupKey_jsSetKey_other (doc : JsonDoc) (k k' : String) (v : JVal)
    (hne : k' ≠ k) :
    lookupKey k' (jsSetKey doc k v) = lookupKey k' doc := by
  unfold jsSetKey
  cases hany : doc.any (fun p => p.1 == k) with
  | true => simpa [cond] using lookupKey_replaceKey_other k k' v doc hne
  | false =>
    have h1 : (k == k') = false := beq_eq_false_iff_ne.mpr (Ne.symm hne)
    rw [cond, lookupKey_append_single, h1]
    cases hl : lookupKey k' doc <;> simp [Option.orElse]

theorem stripTrailingSlash_append_slash (s : String) :
    stripTrailingSlash (s ++ "/") = s := by
  unfold stripTrailingSlash
  have hls : (s ++ "/").toList = s.toList ++ ['/'] := by
    show (s ++ "/").data = s.data ++ ['/']
    simp [String.data_append]
  rw [hls, List.reverse_append]
  simp only [List.reverse_cons, List.reverse_nil, List.nil_append, List.singleton_append]
  rw [List.reverse_reverse]
  show String.mk s.data = s
  rfl

/-- C4: validateConfiguration collects every violation rather than stopping
at the first: validity is exactly emptiness of the error list; each
missing or blank required setting contributes its own entry, as does a
present but malformed resource URL, and the error count is the sum of the
violated checks; the URL-format check is skipped when the value is empty.
Whenever a required setting of the protected-resource endpoint is absent
it answers 503 service_unavailable, and whenever a required variable of
the authorization-server metadata endpoint is absent that endpoint answers
500 without any upstream fetch. -/
theorem validateConfiguration_collects_all (env : Env) (ev : OidcEvent)
    (st : OidcCache) (now : Nat) (up : UpstreamResponse) :
    ((validateConfiguration env).isValid = true ↔ (validateConfiguration env).errors = []) ∧
      (jsIsEmpty (env "RESOURCE_SERVER_URL") = true →
        missingMsg "RESOURCE_SERVER_URL" ∈ (validateConfiguration env).errors) ∧
      (jsIsEmpty (env "COGNITO_USER_POOL_ID") = true →
        missingMsg "COGNITO_USER_POOL_ID" ∈ (validateConfiguration env).errors) ∧
      (jsIsEmpty (env "AWS_REGION") = true →
        missingMsg "AWS_REGION" ∈ (validateConfiguration env).errors) ∧
      (∀ m, urlFormatViolation env = some m → m ∈ (validateConfiguration env).errors) ∧
      (jsIsEmpty (env "RESOURCE_SERVER_URL") = true → urlFormatViolation env = none) ∧
      ((validateConfiguration env).errors.length =
        (if jsIsEmpty (env "RESOURCE_SERVER_URL") then 1 else 0) +
          (if jsIsEmpty (env "COGNITO_USER_POOL_ID") then 1 else 0) +
          (if jsIsEmpty (env "AWS_REGION") then 1 else 0) +
          (if (urlFormatViolation env).isSome then 1 else 0)) ∧
      ((jsIsEmpty (env "RESOURCE_SERVER_URL") = true ∨
          jsIsEmpty (env "COGNITO_USER_POOL_ID") = true ∨
          jsIsEmpty (env "AWS_REGION") = true) →
        handleMetadataRequest env =
          .err 503 "service_unavailable"
            "OAuth metadata temporarily unavailable due to configuration error") ∧
      (∀ v ∈ oidcRequiredEnvVars, jsTruthy (env v) = false →
        oidcHandler env ev st now up =
          (.err 500 "server_error" "OpenID configuration temporarily unavailable", st, false)) := by
  have herrs : ∀ e : Env, (validateConfiguration e).errors ≠ [] →
      (validateConfiguration e).isValid = false := by
    intro e he
    unfold validateConfiguration at he ⊢
    simp only [List.isEmpty_eq_true]
    exact eq_false_of_ne_true (by simpa using he)
  refine ⟨?_, ?_, ?_, ?_, ?_, ?_, ?_, ?_, ?_⟩
  · unfold validateConfiguration
    simp [List.isEmpty_eq_true]
  · intro h
    simp [validateConfiguration, h]
  · intro h
    simp [validateConfiguration, h]
  · intro h
    simp [validateConfiguration, h]
  · intro m hm
    simp [validateConfiguration, hm]
  · intro h
    simp [urlFormatViolation, h]
  · cases h1 : jsIsEmpty (env "RESOURCE_SERVER_URL") <;>
      cases h2 : jsIsEmpty (env "COGNITO_USER_POOL_ID") <;>
        cases h3 : jsIsEmpty (env "AWS_REGION") <;>
          cases h4 : urlFormatViolation env <;>
            simp [validateConfiguration, h1, h2, h3, h4]
  · intro h
    have hmem : (validateConfiguration env).errors ≠ [] := by
      rcases h with h | h | h
      · have hm : missingMsg "RESOURCE_SERVER_URL" ∈ (validateConfiguration env).errors := by
          simp [validateConfiguration, h]
        exact List.ne_nil_of_mem hm
      · have hm : missingMsg "COGNITO_USER_POOL_ID" ∈ (validateConfiguration env).errors := by
          simp [validateConfiguration, h]
        exact List.ne_nil_of_mem hm
      · have hm : missingMsg "AWS_REGION" ∈ (validateConfiguration env).errors := by
          simp [validateConfiguration, h]
        exact List.ne_nil_of_mem hm
    have hval : (validateConfiguration env).isValid = false := herrs env hmem
    simp [handleMetadataRequest, hval]
  · intro v hv hfalse
    have hmem : v ∈ oidcRequiredEnvVars.filter (fun x => !jsTruthy (env x)) :=
      List.mem_filter.mpr ⟨hv, by simp [hfalse]⟩
    have hne : oidcRequiredEnvVars.filter (fun x => !jsTruthy (env x)) ≠ [] :=
      List.ne_nil_of_mem hmem
    unfold oidcHandler
    have hE : (oidcRequiredEnvVars.filter (fun x => !jsTruthy (env x))).isEmpty = false := by
      simpa [List.isEmpty_eq_true] using hne
    simp [hE]

/-- Witness for C4: an environment where only the region is set — the
publisher reports the two missing settings and stays valid otherwise
consistent, the protected-resource endpoint answers 503, and the
authorization-server endpoint answers 500 with no fetch. -/
theorem validateConfiguration_collects_all_witness :
    (missingMsg "RESOURCE_SERVER_URL" ∈
        (validateConfiguration (mkEnv [("AWS_REGION", "us-east-1")])).errors) ∧
      (missingMsg "COGNITO_USER_POOL_ID" ∈
        (validateConfiguration (mkEnv [("AWS_REGION", "us-east-1")])).errors) ∧
      handleMetadataRequest (mkEnv [("AWS_REGION", "us-east-1")]) =
        .err 503 "service_unavailable"
          "OAuth metadata temporarily unavailable due to configuration error" ∧
      oidcHandler (mkEnv [("AWS_REGION", "us-east-1")]) ⟨"GET", "/.well-known/openid-configuration"⟩
          ⟨none, none⟩ 0 ⟨true, 200, "OK", [], none⟩ =
        (.err 500 "server_error" "OpenID configuration temporarily unavailable",
          ⟨none, none⟩, false) :=
  have h := validateConfiguration_collects_all (mkEnv [("AWS_REGION", "us-east-1")])
    ⟨"GET", "/.well-known/openid-configuration"⟩ ⟨none, none⟩ 0 ⟨true, 200, "OK", [], none⟩
  ⟨h.2.1 (by decide), h.2.2.1 (by decide), h.2.2.2.2.2.2.2.1 (Or.inl (by decide)),
    h.2.2.2.2.2.2.2.2 "COGNITO_USER_POOL_ID" (by decide) (by decide)⟩

/-- C5: with valid configuration generateMetadata returns exactly the
document whose resource is the configured base URL with the mcp suffix,
whose single authorization server is the DCR proxy URL with a trailing
slash stripped (when DCR is enabled and the proxy URL is set) or the
directly computed issuer URL otherwise, with the fixed scopes and bearer
methods, and the endpoint serves it with status 200. -/
theorem generateMetadata_exact (env : Env) (u p r : String)
    (hu : env "RESOURCE_SERVER_URL" = some u)
    (hp : env "COGNITO_USER_POOL_ID" = some p)
    (hr : env "AWS_REGION" = some r) :
    (generateMetadata env).resource = u ++ "/mcp" ∧
      (generateMetadata env).scopes_supported = ["openid", "profile", "email"] ∧
      (generateMetadata env).bearer_methods_supported = ["header"] ∧
      (∀ d, jsToLower ((env "DCR_ENABLED").getD "false") = "true" →
        env "AUTHORIZATION_SERVER_WITH_DCR_URL" = some d → d ≠ "" →
        (generateMetadata env).authorization_servers = [stripTrailingSlash d]) ∧
      ((¬ jsToLower ((env "DCR_ENABLED").getD "false") = "true" ∨
          jsTruthy (env "AUTHORIZATION_SERVER_WITH_DCR_URL") = false) →
        (generateMetadata env).authorization_servers =
          ["https://cognito-idp." ++ r ++ ".amazonaws.com/" ++ p]) ∧
      (∀ s : String, stripTrailingSlash (s ++ "/") = s) ∧
      ((validateConfiguration env).isValid = true →
        handleMetadataRequest env = .ok 200 (generateMetadata env)) := by
  refine ⟨?_, ?_, ?_, ?_, ?_, ?_, ?_⟩
  · simp [generateMetadata, hu, jsTemplateStr]
  · simp [generateMetadata]
  · simp [generateMetadata]
  · intro d hdcr hd hdne
    have h1 : (jsToLower ((env "DCR_ENABLED").getD "false") == "true") = true := by
      simp [hdcr]
    have h2 : jsTruthy (some d) = true := by
      simp [jsTruthy, hdne]
    simp [generateMetadata, h1, hd, h2]
  · intro hcase
    rcases hcase with hc | hc
    · have h1 : (jsToLower ((env "DCR_ENABLED").getD "false") == "true") = false := by
        simpa using hc
      simp [generateMetadata, h1, hp, hr, jsTemplateStr]
    · simp [generateMetadata, hc, hp, hr, jsTemplateStr]
  · exact stripTrailingSlash_append_slash
  · intro hval
    simp [handleMetadataRequest, hval]

/-- Witness for C5 at the concrete scenario environment: resource base
https://api.x.com, pool us-east-1_ABC, region us-east-1, DCR disabled. -/
theorem generateMetadata_exact_witness :
    (generateMetadata (mkEnv [("RESOURCE_SERVER_URL", "https://api.x.com"),
        ("COGNITO_USER_POOL_ID", "us-east-1_ABC"), ("AWS_REGION", "us-east-1")])).resource =
      "https://api.x.com/mcp" ∧
    (generateMetadata (mkEnv [("RESOURCE_SERVER_URL", "https://api.x.com"),
        ("COGNITO_USER_POOL_ID", "us-east-1_ABC"), ("AWS_REGION", "us-east-1")])).authorization_servers =
      ["https://cognito-idp.us-east-1.amazonaws.com/us-east-1_ABC"] ∧
    handleMetadataRequest (mkEnv [("RESOURCE_SERVER_URL", "https://api.x.com"),
        ("COGNITO_USER_POOL_ID", "us-east-1_ABC"), ("AWS_REGION", "us-east-1")]) =
      .ok 200 (generateMetadata (mkEnv [("RESOURCE_SERVER_URL", "https://api.x.com"),
        ("COGNITO_USER_POOL_ID", "us-east-1_ABC"), ("AWS_REGION", "us-east-1")])) :=
  have h := generateMetadata_exact
    (mkEnv [("RESOURCE_SERVER_URL", "https://api.x.com"),
      ("COGNITO_USER_POOL_ID", "us-east-1_ABC"), ("AWS_REGION", "us-east-1")])
    "https://api.x.com" "us-east-1_ABC" "us-east-1" (by decide) (by decide) (by decide)
  ⟨by rw [h.1]; decide,
    by rw [h.2.2.2.2.1 (Or.inl (by decide))]; decide,
    h.2.2.2.2.2.2 (by decide)⟩

/-- C6 (amended): the metadata proxy returns the cached document with no
upstream fetch while the cache is unexpired; a refresh merges exactly the
statically configured registration endpoint and the PKCE methods array into
the upstream document, leaves every other field unchanged, and stores the
result in the single process-wide slot with expiry now plus max-age seconds
when the upstream Cache-Control carries a nonzero max-age and 3600 seconds
otherwise (a zero max-age is falsy and falls back to the default); a
non-success upstream status yields the fixed generic 500 body; the handler
ignores the incoming event entirely, so the slot is tenant-agnostic. -/
theorem oidc_cache_behavior (env : Env) (ev ev' : OidcEvent) (st : OidcCache)
    (now : Nat) (up : UpstreamResponse) (doc : JsonDoc) (reg : String) (m : Nat) :
    (st.cachedConfig = some doc → now < expiryNum st.cacheExpiry →
      getOpenIDConfiguration st now reg up = (.ok doc, st, false)) ∧
      lookupKey "registration_endpoint" (enhanceConfig up.body reg) = some (.str reg) ∧
      lookupKey "code_challenge_methods_supported" (enhanceConfig up.body reg) =
        some (.arr ["S256"]) ∧
      (∀ k, k ≠ "registration_endpoint" → k ≠ "code_challenge_methods_supported" →
        lookupKey k (enhanceConfig up.body reg) = lookupKey k up.body) ∧
      (st.cachedConfig = none → up.ok = true →
        getOpenIDConfiguration st now reg up =
          (.ok (enhanceConfig up.body reg),
            ⟨some (enhanceConfig up.body reg),
              some (now + jsOrNat (parseCacheControl up.cacheControl) 3600 * 1000)⟩, true)) ∧
      (parseCacheControl up.cacheControl = some m → m ≠ 0 →
        jsOrNat (parseCacheControl up.cacheControl) 3600 = m) ∧
      (parseCacheControl up.cacheControl = none →
        jsOrNat (parseCacheControl up.cacheControl) 3600 = 3600) ∧
      (st.cachedConfig = none → up.ok = false →
        (∀ v ∈ oidcRequiredEnvVars, jsTruthy (env v) = true) →
        oidcHandler env ev st now up =
          (.err 500 "server_error" "OpenID configuration temporarily unavailable", st, true)) ∧
      oidcHandler env ev st now up = oidcHandler env ev' st now up := by
  refine ⟨?_, ?_, ?_, ?_, ?_, ?_, ?_, ?_, rfl⟩
  · intro h1 h2
    unfold getOpenIDConfiguration
    rw [h1]
    simp [h2]
  · rw [enhanceConfig, lookupKey_jsSetKey_other _ _ _ _ (by decide), lookupKey_jsSetKey_self]
  · rw [enhanceConfig, lookupKey_jsSetKey_self]
  · intro k hk1 hk2
    rw [enhanceConfig, lookupKey_jsSetKey_other _ _ _ _ hk2, lookupKey_jsSetKey_other _ _ _ _ hk1]
  · intro h1 h2
    unfold getOpenIDConfiguration
    rw [h1]
    unfold oidcRefresh
    simp [h2]
  · intro hp hm
    simp [jsOrNat, hp, hm]
  · intro hp
    simp [jsOrNat, hp]
  · intro hnone hok hall
    have h1 := hall "COGNITO_USER_POOL_ID" (by decide)
    have h2 := hall "DEPLOYMENT_REGION" (by decide)
    have h3 := hall "REGISTRATION_ENDPOINT_URL" (by decide)
    unfold oidcHandler
    simp only [oidcRequiredEnvVars, List.filter, h1, h2, h3, Bool.not_true, List.isEmpty_nil]
    unfold getOpenIDConfiguration
    rw [hnone]
    unfold oidcRefresh
    simp [hok]

/-- Witness for C6 at concrete inputs: an unexpired cache hit returns the
cached document with no fetch; the enhanced document keeps the upstream
issuer and gains the two merged fields; a 60 second max-age is honored; and
a failing upstream yields the generic 500. -/
theorem oidc_cache_behavior_witness :
    getOpenIDConfiguration ⟨some [("issuer", JVal.str "https://i")], some 5000⟩ 10
        "https://r/register" ⟨true, 200, "OK", [("issuer", JVal.str "https://i")], some "max-age=60"⟩ =
      (.ok [("issuer", JVal.str "https://i")],
        ⟨some [("issuer", JVal.str "https://i")], some 5000⟩, false) ∧
      lookupKey "issuer"
          (enhanceConfig [("issuer", JVal.str "https://i")] "https://r/register") =
        some (JVal.str "https://i") ∧
      lookupKey "registration_endpoint"
          (enhanceConfig [("issuer", JVal.str "https://i")] "https://r/register") =
        some (JVal.str "https://r/register") ∧
      jsOrNat (parseCacheControl (some "max-age=60")) 3600 = 60 ∧
      oidcHandler (mkEnv [("COGNITO_USER_POOL_ID", "us-east-1_ABC"),
          ("DEPLOYMENT_REGION", "us-east-1"),
          ("REGISTRATION_ENDPOINT_URL", "https://r/register")])
          ⟨"GET", "/.well-known/openid-configuration"⟩ ⟨none, none⟩ 0
          ⟨false, 502, "Bad Gateway", [], none⟩ =
        (.err 500 "server_error" "OpenID configuration temporarily unavailable",
          ⟨none, none⟩, true) :=
  have h := oidc_cache_behavior
    (mkEnv [("COGNITO_USER_POOL_ID", "us-east-1_ABC"), ("DEPLOYMENT_REGION", "us-east-1"),
      ("REGISTRATION_ENDPOINT_URL", "https://r/register")])
    ⟨"GET", "/.well-known/openid-configuration"⟩ ⟨"GET", "/.well-known/openid-configuration"⟩
    ⟨some [("issuer", JVal.str "https://i")], some 5000⟩ 10
    ⟨true, 200, "OK", [("issuer", JVal.str "https://i")], some "max-age=60"⟩
    [("issuer", JVal.str "https://i")] "https://r/register" 60
  have h2 := oidc_cache_behavior
    (mkEnv [("COGNITO_USER_POOL_ID", "us-east-1_ABC"), ("DEPLOYMENT_REGION", "us-east-1"),
      ("REGISTRATION_ENDPOINT_URL", "https://r/register")])
    ⟨"GET", "/.well-known/openid-configuration"⟩ ⟨"GET", "/.well-known/openid-configuration"⟩
    ⟨none, none⟩ 0 ⟨false, 502, "Bad Gateway", [], none⟩ [] "https://r/register" 0
  ⟨h.1 rfl (by decide),
    by rw [h.2.2.2.1 "issuer" (by decide) (by decide)]; decide,
    h.2.1,
    h.2.2.2.2.2.1 (by decide) (by decide),
    h2.2.2.2.2.2.2.2.1 rfl rfl (by decide)⟩

/-- Counterexample for C6 as stated: with an upstream Cache-Control of
max-age=0 the directive is present with value 0, yet the stored expiry is
now plus 3600000 milliseconds (the default), not now plus 0 — the zero
max-age is falsy in the logical-or defaulting. -/
theorem oidc_maxage_zero_counterexample :
    parseCacheControl (some "max-age=0") = some 0 ∧
      (getOpenIDConfiguration ⟨none, none⟩ 0 "https://r/register"
          ⟨true, 200, "OK", [("issuer", JVal.str "https://x")], some "max-age=0"⟩).2.1.cacheExpiry =
        some 3600000 ∧
      some (3600000 : Nat) ≠ some (0 + 0 * 1000) := by
  refine ⟨by decide, ?_, by decide⟩
  decide

/-! ### RFC 7591 dynamic client registration handler -/

/-- The redirect_uris field of a parsed registration body: absent, present
but not an array, or an array of strings. -/
inductive JsField where
  | missing
  | notArray
  | strs (l : List String)
deriving DecidableEq, Repr

/-- A parsed registration request body (the fields the handler reads). -/
structure RegBody where
  redirect_uris : JsField
  client_name : Option String
  grant_types : Option (List String)
  response_types : Option (List String)
  scope : Option String
deriving DecidableEq, Repr

/-- An incoming registration request: the method, the content type from
whichever header casing was sent, and the parsed body. -/
structure DcrEvent where
  httpMethod : String
  contentType : Option String
  body : RegBody
deriving DecidableEq, Repr

/-- An upstream user-pool client. -/
structure UserPoolClient where
  clientId : String
  clientName : String
  callbackURLs : List String
deriving DecidableEq, Repr

/-- The world the handler acts on: the pool configuration, the dedup store,
the upstream client list, a counter minting fresh client ids, and
fault-injection flags for the two best-effort side effects whose failures
the source catches and logs (the dedup write and the branding call). -/
structure DcrWorld where
  poolId : Option String
  dedup : List (String × String)
  cognito : List UserPoolClient
  nextId : Nat
  storeFails : Bool
  brandingFails : Bool
deriving DecidableEq, Repr

/-- The id minted for the next created upstream client. -/
def mkClientId (n : Nat) : String := "client-" ++ toString n

/-- The RFC 7591 success body (the fields the claims observe). -/
structure DcrSuccess where
  client_id : String
  client_id_issued_at : Nat
  redirect_uris : List String
  grant_types : List String
  response_types : List String
  token_endpoint_auth_method : String
  client_name : Option String
  scope : Option String
deriving DecidableEq, Repr

/-- A registration response: an error body or the 201 success body. -/
inductive DcrResult where
  | err (status : Nat) (error : String) (errorDescription : String)
  | created (status : Nat) (body : DcrSuccess)
deriving DecidableEq, Repr

/-- The per-entry validation loop over redirect_uris, in source order: a
parse failure names the offending value in the description; a parsed entry
must begin with https:// or http://localhost — a plain string-prefix test,
whose rejection message is a fixed text. -/
def redirectUriViolation : List String → Option (String × String)
  | [] => none
  | uri :: rest =>
    match jsParseURL uri with
    | none => some ("invalid_redirect_uri", "Invalid URI format: " ++ uri)
    | some _ =>
      if jsStartsWith uri "https://" || jsStartsWith uri "http://localhost" then
        redirectUriViolation rest
      else some ("invalid_redirect_uri", "redirect_uris must use HTTPS or localhost")

/-- The redirect_uris validation of the handler: required, an array,
non-empty, then the per-entry loop. -/
def validateRedirectUris : JsField → Option (String × String)
  | .missing =>
    some ("invalid_redirect_uri", "redirect_uris is required and must be a non-empty array")
  | .notArray =>
    some ("invalid_redirect_uri", "redirect_uris is required and must be a non-empty array")
  | .strs l =>
    if l.isEmpty then
      some ("invalid_redirect_uri", "redirect_uris is required and must be a non-empty array")
    else redirectUriViolation l

/-- The dedup lookup: the stored client id for the composite key, then the
upstream describe call; a failure of either step yields null, which the
caller treats as a miss. -/
def findExistingPublicClient (w : DcrWorld) (key : String) : Option UserPoolClient :=
  match w.dedup.lookup key with
  | none => none
  | some cid => w.cognito.find? (fun c => c.clientId == cid)

/-- The RFC 7591 success body for a client id and the request fields:
the auth method is forced to none, truthy optional fields are echoed. -/
def mkDcrSuccess (clientId : String) (now : Nat) (uris : List String)
    (grants resps : List String) (b : RegBody) : DcrSuccess :=
  { client_id := clientId,
    client_id_issued_at := now,
    redirect_uris := uris,
    grant_types := grants,
    response_types := resps,
    token_endpoint_auth_method := "none",
    client_name := if jsTruthy b.client_name then b.client_name else none,
    scope := if jsTruthy b.scope then b.scope else none }

/-- The registration handler as a state transformer over the world, branch
for branch from the source: method and content-type checks, the pool-id
guard, redirect validation, the grant and response type cross-check, the
dedup lookup with describe, and on a miss the upstream create followed by
the best-effort dedup write (skipped when it fails) and the best-effort
branding call (whose failure has no effect on response or state). -/
def dcrHandler (event : DcrEvent) (now : Nat) (w : DcrWorld) : DcrResult × DcrWorld :=
  if event.httpMethod ≠ "POST" then
    (.err 405 "invalid_request" "Only POST method is allowed", w)
  else if event.contentType ≠ some "application/json" then
    (.err 400 "invalid_request" "Content-Type must be application/json", w)
  else if jsTruthy w.poolId = false then
    (.err 500 "server_error" "Server configuration error", w)
  else
    let b := event.body
    let grants := b.grant_types.getD ["authorization_code"]
    let resps := b.response_types.getD ["code"]
    match validateRedirectUris b.redirect_uris with
    | some pair => (.err 400 pair.1 pair.2, w)
    | none =>
      if grants.contains "authorization_code" && !resps.contains "code" then
        (.err 400 "invalid_client_metadata" "authorization_code grant requires code response_type", w)
      else
        let uris := match b.redirect_uris with | .strs l => l | _ => []
        let key := createClientKey b.client_name uris
        match findExistingPublicClient w key with
        | some client =>
          (.created 201 (mkDcrSuccess client.clientId now uris grants resps b), w)
        | none =>
          let newClient : UserPoolClient :=
            { clientId := mkClientId w.nextId,
              clientName := jsOrStr b.client_name "OAuth Dynamic Client",
              callbackURLs := uris }
          let w1 := { w with cognito := w.cognito ++ [newClient], nextId := w.nextId + 1 }
          let w2 := if w.storeFails then w1
            else { w1 with dedup := (key, newClient.clientId) :: w1.dedup }
          (.created 201 (mkDcrSuccess newClient.clientId now uris grants resps b), w2)

theorem find?_append_fresh (l : List UserPoolClient) (c : UserPoolClient)
    (hfresh : ∀ x ∈ l, x.clientId ≠ c.clientId) :
    (l ++ [c]).find? (fun x => x.clientId == c.clientId) = some c := by
  induction l with
  | nil => simp
  | cons h t ih =>
    have hh : (h.clientId == c.clientId) = false := by
      simpa using hfresh h (by simp)
    simp only [List.cons_append, List.find?_cons, hh]
    exact ih (fun x hx => hfresh x (by simp [hx]))

/-- One registration call on a dedup miss: the upstream client is created
with the minted id, the dedup entry is written unless the write fails, and
the response is 201 with the new id. -/
theorem dcrHandler_create (b : RegBody) (w : DcrWorld) (now : Nat) (uris : List String)
    (huris : b.redirect_uris = .strs uris)
    (hvalid : validateRedirectUris (.strs uris) = none)
    (hcompat : ((b.grant_types.getD ["authorization_code"]).contains "authorization_code" &&
      !((b.response_types.getD ["code"]).contains "code")) = false)
    (hpool : jsTruthy w.poolId = true)
    (hmiss : findExistingPublicClient w (createClientKey b.client_name uris) = none) :
    dcrHandler ⟨"POST", some "application/json", b⟩ now w =
      (.created 201 (mkDcrSuccess (mkClientId w.nextId) now uris
          (b.grant_types.getD ["authorization_code"]) (b.response_types.getD ["code"]) b),
        if w.storeFails then
          { w with
            cognito := w.cognito ++
              [⟨mkClientId w.nextId, jsOrStr b.client_name "OAuth Dynamic Client", uris⟩],
            nextId := w.nextId + 1 }
        else
          { w with
            cognito := w.cognito ++
              [⟨mkClientId w.nextId, jsOrStr b.client_name "OAuth Dynamic Client", uris⟩],
            nextId := w.nextId + 1,
            dedup := (createClientKey b.client_name uris, mkClientId w.nextId) :: w.dedup }) := by
  unfold dcrHandler
  simp only [huris, hvalid, hcompat, hpool, hmiss]
  by_cases hs : w.storeFails <;> simp [hs]

/-- One registration call on a dedup hit: the stored client is described
and returned with 201, and the world is unchanged. -/
theorem dcrHandler_existing (b : RegBody) (w : DcrWorld) (now : Nat) (uris : List String)
    (client : UserPoolClient)
    (huris : b.redirect_uris = .strs uris)
    (hvalid : validateRedirectUris (.strs uris) = none)
    (hcompat : ((b.grant_types.getD ["authorization_code"]).contains "authorization_code" &&
      !((b.response_types.getD ["code"]).contains "code")) = false)
    (hpool : jsTruthy w.poolId = true)
    (hfound : findExistingPublicClient w (createClientKey b.client_name uris) = some client) :
    dcrHandler ⟨"POST", some "application/json", b⟩ now w =
      (.created 201 (mkDcrSuccess client.clientId now uris
          (b.grant_types.getD ["authorization_code"]) (b.response_types.getD ["code"]) b), w) := by
  unfold dcrHandler
  simp only [huris, hvalid, hcompat, hpool]
  simp [hfound]

/-- C3: registration is idempotent on the client name and redirect URIs —
for a valid body, with the first dedup write succeeding, two sequential
submissions both answer 201 with the same client id; the second call finds
the dedup entry, describes the existing client, and creates no new
upstream client. -/
theorem dcr_idempotent_registration (b : RegBody) (w : DcrWorld) (now now2 : Nat)
    (uris : List String)
    (huris : b.redirect_uris = .strs uris)
    (hvalid : validateRedirectUris (.strs uris) = none)
    (hcompat : ((b.grant_types.getD ["authorization_code"]).contains "authorization_code" &&
      !((b.response_types.getD ["code"]).contains "code")) = false)
    (hpool : jsTruthy w.poolId = true)
    (hmiss : w.dedup.lookup (createClientKey b.client_name uris) = none)
    (hstore : w.storeFails = false)
    (hfresh : ∀ c ∈ w.cognito, c.clientId ≠ mkClientId w.nextId) :
    (dcrHandler ⟨"POST", some "application/json", b⟩ now w).1 =
        .created 201 (mkDcrSuccess (mkClientId w.nextId) now uris
          (b.grant_types.getD ["authorization_code"]) (b.response_types.getD ["code"]) b) ∧
      (dcrHandler ⟨"POST", some "application/json", b⟩ now2
          (dcrHandler ⟨"POST", some "application/json", b⟩ now w).2).1 =
        .created 201 (mkDcrSuccess (mkClientId w.nextId) now2 uris
          (b.grant_types.getD ["authorization_code"]) (b.response_types.getD ["code"]) b) ∧
      (dcrHandler ⟨"POST", some "application/json", b⟩ now2
          (dcrHandler ⟨"POST", some "application/json", b⟩ now w).2).2.cognito =
        (dcrHandler ⟨"POST", some "application/json", b⟩ now w).2.cognito := by
  have hmiss0 : findExistingPublicClient w (createClientKey b.client_name uris) = none := by
    unfold findExistingPublicClient
    rw [hmiss]
  have h1 := dcrHandler_create b w now uris huris hvalid hcompat hpool hmiss0
  rw [hstore] at h1
  simp only [if_false, Bool.false_eq_true] at h1
  set newClient : UserPoolClient :=
    ⟨mkClientId w.nextId, jsOrStr b.client_name "OAuth Dynamic Client", uris⟩ with hnc
  set w2 : DcrWorld :=
    { w with
      cognito := w.cognito ++ [newClient],
      nextId := w.nextId + 1,
      dedup := (createClientKey b.client_name uris, mkClientId w.nextId) :: w.dedup,
      storeFails := false } with hw2
  have hfound : findExistingPublicClient w2 (createClientKey b.client_name uris) =
      some newClient := by
    unfold findExistingPublicClient
    have hl : w2.dedup.lookup (createClientKey b.client_name uris) =
        some (mkClientId w.nextId) := by
      simp [hw2, List.lookup]
    rw [hl]
    have : w2.cognito = w.cognito ++ [newClient] := rfl
    rw [this]
    have hcid : newClient.clientId = mkClientId w.nextId := rfl
    rw [← hcid]
    exact find?_append_fresh w.cognito newClient (by
      intro x hx
      have := hfresh x hx
      simpa [hnc] using this)
  have hpool2 : jsTruthy w2.poolId = true := hpool
  have h2 := dcrHandler_existing b w2 now2 uris newClient huris hvalid hcompat hpool2 hfound
  refine ⟨?_, ?_, ?_⟩
  · rw [h1]
  · rw [h1]
    simp only []
    rw [h2]
  · rw [h1]
    simp only []
    rw [h2]

/-- Witness for C3 at the concrete scenario: registering client CLI Tool
with redirect URI http://localhost:4000/cb twice against an empty world. -/
theorem dcr_idempotent_registration_witness :
    (dcrHandler ⟨"POST", some "application/json",
        ⟨.strs ["http://localhost:4000/cb"], some "CLI Tool", none, none, none⟩⟩ 5
        ⟨some "pool-1", [], [], 0, false, false⟩).1 =
      .created 201 (mkDcrSuccess (mkClientId 0) 5 ["http://localhost:4000/cb"]
        ["authorization_code"] ["code"]
        ⟨.strs ["http://localhost:4000/cb"], some "CLI Tool", none, none, none⟩) ∧
    (dcrHandler ⟨"POST", some "application/json",
        ⟨.strs ["http://localhost:4000/cb"], some "CLI Tool", none, none, none⟩⟩ 9
        (dcrHandler ⟨"POST", some "application/json",
          ⟨.strs ["http://localhost:4000/cb"], some "CLI Tool", none, none, none⟩⟩ 5
          ⟨some "pool-1", [], [], 0, false, false⟩).2).1 =
      .created 201 (mkDcrSuccess (mkClientId 0) 9 ["http://localhost:4000/cb"]
        ["authorization_code"] ["code"]
        ⟨.strs ["http://localhost:4000/cb"], some "CLI Tool", none, none, none⟩) ∧
    (dcrHandler ⟨"POST", some "application/json",
        ⟨.strs ["http://localhost:4000/cb"], some "CLI Tool", none, none, none⟩⟩ 9
        (dcrHandler ⟨"POST", some "application/json",
          ⟨.strs ["http://localhost:4000/cb"], some "CLI Tool", none, none, none⟩⟩ 5
          ⟨some "pool-1", [], [], 0, false, false⟩).2).2.cognito =
      (dcrHandler ⟨"POST", some "application/json",
        ⟨.strs ["http://localhost:4000/cb"], some "CLI Tool", none, none, none⟩⟩ 5
        ⟨some "pool-1", [], [], 0, false, false⟩).2.cognito :=
  dcr_idempotent_registration
    ⟨.strs ["http://localhost:4000/cb"], some "CLI Tool", none, none, none⟩
    ⟨some "pool-1", [], [], 0, false, false⟩ 5 9 ["http://localhost:4000/cb"]
    rfl (by decide) (by decide) (by decide) (by decide) rfl (by decide)

/-- C9: once the upstream client creation has succeeded, neither a dedup
write failure nor a branding failure changes the registration outcome —
the response is still 201 with the new client id for every combination of
the two fault flags (the source catches and logs both). -/
theorem dcr_best_effort_side_effects (b : RegBody) (w : DcrWorld) (now : Nat)
    (uris : List String) (sf bf : Bool)
    (huris : b.redirect_uris = .strs uris)
    (hvalid : validateRedirectUris (.strs uris) = none)
    (hcompat : ((b.grant_types.getD ["authorization_code"]).contains "authorization_code" &&
      !((b.response_types.getD ["code"]).contains "code")) = false)
    (hpool : jsTruthy w.poolId = true)
    (hmiss : findExistingPublicClient w (createClientKey b.client_name uris) = none) :
    (dcrHandler ⟨"POST", some "application/json", b⟩ now
        { w with storeFails := sf, brandingFails := bf }).1 =
      .created 201 (mkDcrSuccess (mkClientId w.nextId) now uris
        (b.grant_types.getD ["authorization_code"]) (b.response_types.getD ["code"]) b) := by
  have h := dcrHandler_create b { w with storeFails := sf, brandingFails := bf } now uris
    huris hvalid hcompat hpool hmiss
  rw [h]

/-- Witness for C9 with both side effects failing against an empty world. -/
theorem dcr_best_effort_side_effects_witness :
    (dcrHandler ⟨"POST", some "application/json",
        ⟨.strs ["https://app.example/cb"], some "App", none, none, none⟩⟩ 7
        ⟨some "pool-1", [], [], 0, true, true⟩).1 =
      .created 201 (mkDcrSuccess (mkClientId 0) 7 ["https://app.example/cb"]
        ["authorization_code"] ["code"]
        ⟨.strs ["https://app.example/cb"], some "App", none, none, none⟩) :=
  dcr_best_effort_side_effects
    ⟨.strs ["https://app.example/cb"], some "App", none, none, none⟩
    ⟨some "pool-1", [], [], 0, false, false⟩ 7 ["https://app.example/cb"] true true
    rfl (by decide) (by decide) (by decide) (by decide)

theorem isPrefixOf_self (l : List Char) : l.isPrefixOf l = true := by
  induction l with
  | nil => rfl
  | cons c t ih => simp [List.isPrefixOf, ih]

theorem containsSubList_append_self (pre l : List Char) :
    containsSubList l (pre ++ l) = true := by
  induction pre with
  | nil =>
    cases l with
    | nil => rfl
    | cons c t => simp [containsSubList, isPrefixOf_self]
  | cons c t ih => simp [containsSubList, ih]

theorem jsIncludes_append_self (a u : String) : jsIncludes (a ++ u) u = true := by
  unfold jsIncludes
  have h : (a ++ u).toList = a.toList ++ u.toList := by
    show (a ++ u).data = a.data ++ u.data
    simp [String.data_append]
  rw [h]
  exact containsSubList_append_self a.toList u.toList

theorem redirectUriViolation_none (l : List String)
    (hall : ∀ u ∈ l, (jsParseURL u).isSome = true ∧
      (jsStartsWith u "https://" || jsStartsWith u "http://localhost") = true) :
    redirectUriViolation l = none := by
  induction l with
  | nil => rfl
  | cons u t ih =>
    obtain ⟨hp, hs⟩ := hall u (by simp)
    cases hparse : jsParseURL u with
    | none => rw [hparse] at hp; simp at hp
    | some x =>
      simp only [redirectUriViolation, hparse, hs, if_true]
      exact ih (fun v hv => hall v (by simp [hv]))

/-- Counterexample for C7 as stated: the registration of the non-loopback,
non-https redirect URI http://example.com/cb is rejected with 400 and code
invalid_redirect_uri, but the error description is the fixed text
redirect_uris must use HTTPS or localhost, which does not name the
offending value. -/
theorem dcr_redirect_uri_naming_counterexample :
    (dcrHandler ⟨"POST", some "application/json",
        ⟨.strs ["http://example.com/cb"], some "CLI Tool", none, none, none⟩⟩ 0
        ⟨some "pool-1", [], [], 0, false, false⟩).1 =
      .err 400 "invalid_redirect_uri" "redirect_uris must use HTTPS or localhost" ∧
      jsIncludes "redirect_uris must use HTTPS or localhost" "http://example.com/cb" = false := by
  decide

/-- C7 (amended): registration rejects a missing, non-array, or empty
redirect_uris, an entry that does not parse as a URI, and an entry that is
neither https nor an http://localhost prefix, each with status 400 and
error code invalid_redirect_uri; only the malformed-entry description names
the offending value, the other two use fixed descriptions; concretely
ftp://x is rejected, http://localhost:3000/cb is accepted, and
http://example.com/cb is rejected. -/
theorem dcr_redirect_uri_validation (uri : String) (rest : List String) (f : JsField) :
    ((f = .missing ∨ f = .notArray ∨ f = .strs []) →
      validateRedirectUris f =
        some ("invalid_redirect_uri",
          "redirect_uris is required and must be a non-empty array")) ∧
      (jsParseURL uri = none →
        redirectUriViolation (uri :: rest) =
          some ("invalid_redirect_uri", "Invalid URI format: " ++ uri) ∧
        jsIncludes ("Invalid URI format: " ++ uri) uri = true) ∧
      ((jsParseURL uri).isSome = true → jsStartsWith uri "https://" = false →
        jsStartsWith uri "http://localhost" = false →
        redirectUriViolation (uri :: rest) =
          some ("invalid_redirect_uri", "redirect_uris must use HTTPS or localhost")) ∧
      validateRedirectUris (.strs ["ftp://x"]) =
        some ("invalid_redirect_uri", "redirect_uris must use HTTPS or localhost") ∧
      validateRedirectUris (.strs ["http://localhost:3000/cb"]) = none ∧
      validateRedirectUris (.strs ["http://example.com/cb"]) =
        some ("invalid_redirect_uri", "redirect_uris must use HTTPS or localhost") ∧
      (∀ g d, validateRedirectUris f = some (g, d) →
        ∀ (b : RegBody) (w : DcrWorld) (now : Nat), b.redirect_uris = f →
          jsTruthy w.poolId = true →
          (dcrHandler ⟨"POST", some "application/json", b⟩ now w).1 = .err 400 g d) := by
  refine ⟨?_, ?_, ?_, by decide, by decide, by decide, ?_⟩
  · rintro (h | h | h) <;> subst h <;> rfl
  · intro hparse
    refine ⟨?_, jsIncludes_append_self "Invalid URI format: " uri⟩
    simp [redirectUriViolation, hparse]
  · intro hp h1 h2
    cases hparse : jsParseURL uri with
    | none => rw [hparse] at hp; simp at hp
    | some x => simp [redirectUriViolation, hparse, h1, h2]
  · intro g d hval b w now hb hpool
    unfold dcrHandler
    simp [hb, hval, hpool]

/-- Witness for C7 at concrete inputs: an empty array, a malformed entry,
and a wrong-scheme entry, each driven through the handler. -/
theorem dcr_redirect_uri_validation_witness :
    validateRedirectUris (.strs []) =
      some ("invalid_redirect_uri",
        "redirect_uris is required and must be a non-empty array") ∧
    redirectUriViolation ["not a url"] =
      some ("invalid_redirect_uri", "Invalid URI format: " ++ "not a url") ∧
    jsIncludes ("Invalid URI format: " ++ "not a url") "not a url" = true ∧
    redirectUriViolation ["ftp://x"] =
      some ("invalid_redirect_uri", "redirect_uris must use HTTPS or localhost") ∧
    (dcrHandler ⟨"POST", some "application/json",
        ⟨.strs [], some "CLI Tool", none, none, none⟩⟩ 0
        ⟨some "pool-1", [], [], 0, false, false⟩).1 =
      .err 400 "invalid_redirect_uri"
        "redirect_uris is required and must be a non-empty array" :=
  have h := dcr_redirect_uri_validation "not a url" [] (.strs [])
  have h2 := dcr_redirect_uri_validation "ftp://x" [] (.strs [])
  ⟨h.1 (Or.inr (Or.inr rfl)),
    (h.2.1 (by decide)).1,
    (h.2.1 (by decide)).2,
    h2.2.2.1 (by decide) (by decide) (by decide),
    h.2.2.2.2.2.2 "invalid_redirect_uri"
      "redirect_uris is required and must be a non-empty array" (h.1 (Or.inr (Or.inr rfl)))
      ⟨.strs [], some "CLI Tool", none, none, none⟩
      ⟨some "pool-1", [], [], 0, false, false⟩ 0 rfl (by decide)⟩

/-- C10: the localhost exemption in redirect URI validation is a plain
string-prefix test, not a loopback-host check — every entry list whose
members parse as URLs and whose text begins with the literal characters
http://localhost passes validation, including non-loopback hosts, and such
a registration is accepted with 201. -/
theorem dcr_localhost_prefix_accepts (uris : List String) (b : RegBody)
    (w : DcrWorld) (now : Nat)
    (hne : uris ≠ [])
    (hall : ∀ u ∈ uris, (jsParseURL u).isSome = true ∧
      jsStartsWith u "http://localhost" = true) :
    validateRedirectUris (.strs uris) = none ∧
      (b.redirect_uris = .strs uris →
        ((b.grant_types.getD ["authorization_code"]).contains "authorization_code" &&
          !((b.response_types.getD ["code"]).contains "code")) = false →
        jsTruthy w.poolId = true →
        findExistingPublicClient w (createClientKey b.client_name uris) = none →
        (dcrHandler ⟨"POST", some "application/json", b⟩ now w).1 =
          .created 201 (mkDcrSuccess (mkClientId w.nextId) now uris
            (b.grant_types.getD ["authorization_code"])
            (b.response_types.getD ["code"]) b)) := by
  have hv : validateRedirectUris (.strs uris) = none := by
    have hie : uris.isEmpty = false := by
      cases uris with
      | nil => exact absurd rfl hne
      | cons u t => rfl
    simp only [validateRedirectUris, hie, Bool.false_eq_true, if_false]
    exact redirectUriViolation_none uris
      (fun u hu => ⟨(hall u hu).1, by simp [(hall u hu).2]⟩)
  refine ⟨hv, ?_⟩
  intro hb hcompat hpool hmiss
  rw [dcrHandler_create b w now uris hb hv hcompat hpool hmiss]

/-- Witness for C10: the non-loopback host http://localhost.attacker.example
and the host http://localhostevil both begin with the prefix and register
with 201. -/
theorem dcr_localhost_prefix_accepts_witness :
    validateRedirectUris
        (.strs ["http://localhost.attacker.example/cb", "http://localhostevil/"]) = none ∧
      (dcrHandler ⟨"POST", some "application/json",
          ⟨.strs ["http://localhost.attacker.example/cb", "http://localhostevil/"],
            some "Evil", none, none, none⟩⟩ 3
          ⟨some "pool-1", [], [], 0, false, false⟩).1 =
        .created 201 (mkDcrSuccess (mkClientId 0) 3
          ["http://localhost.attacker.example/cb", "http://localhostevil/"]
          ["authorization_code"] ["code"]
          ⟨.strs ["http://localhost.attacker.example/cb", "http://localhostevil/"],
            some "Evil", none, none, none⟩) :=
  have h := dcr_localhost_prefix_accepts
    ["http://localhost.attacker.example/cb", "http://localhostevil/"]
    ⟨.strs ["http://localhost.attacker.example/cb", "http://localhostevil/"],
      some "Evil", none, none, none⟩
    ⟨some "pool-1", [], [], 0, false, false⟩ 3 (by decide) (by decide)
  ⟨h.1, h.2 rfl (by decide) (by decide) (by decide)⟩
